import Mathlib

/-!
Shallow embedding of `src/webapp/app.py` (a Flask status-reporting service).

The ambient operating-system state that a single request observes is made
explicit as an `Env` value: the outcome of each `subprocess.run` invocation
(indexed by command string and timeout), the result of reading a file, path
existence, the platform identity strings, load averages, CPU count, and the
clock reading used for timestamps. Each Python function of the source becomes
a Lean function of the `Env`. Python exceptions are modelled with
`Option`/`Except`: `none`/`.error` where the Python call raises.
-/

namespace Webapp

/-- Outcome of a single `subprocess.run(cmd, shell=True, capture_output=True,
text=True, timeout=t)` call: either it raises (`TimeoutExpired` or any other
exception) or it completes with an exit code and captured standard output. -/
inductive CmdOutcome where
  | raises
  | completes (returncode : Int) (stdout : String)
  deriving DecidableEq

/-- Python exceptions that the embedded code can raise. The only unguarded
raising call in the source is `os.getloadavg()`, which raises `OSError` when
the platform does not expose load averages. -/
inductive PyExc where
  | OSError
  deriving DecidableEq

/-- The system state one request observes. `exec cmd t` is the outcome of
running shell command `cmd` with timeout `t` seconds; `readFile p` is `some`
content when opening and reading path `p` succeeds and `none` when it raises;
`loadavg = none` models `os.getloadavg()` raising `OSError`; `cpu_count =
none` models `os.cpu_count()` returning `None`; `now` is the string
`datetime.now().isoformat()` would produce at this instant. -/
structure Env where
  exec : String → Nat → CmdOutcome
  readFile : String → Option String
  pathExists : String → Bool
  hostname : String
  system : String
  release : String
  machine : String
  python_version : String
  loadavg : Option (Rat × Rat × Rat)
  cpu_count : Option Nat
  now : String

/-- Python `str.strip()`: remove leading and trailing whitespace characters.
Implemented by structural recursion over the character list so that it
evaluates on concrete strings. -/
def pyStrip (s : String) : String :=
  ⟨((s.data.dropWhile Char.isWhitespace).reverse.dropWhile
      Char.isWhitespace).reverse⟩

/-- `run_command` from the source: run the command with a 5-second timeout;
return the stripped stdout when the exit code is 0, `None` on a non-zero exit,
and `None` when the call raises (timeout or any other exception). -/
def run_command (env : Env) (cmd : String) : Option String :=
  match env.exec cmd 5 with
  | .raises => none
  | .completes rc out => if rc = 0 then some (pyStrip out) else none

/-- Python `x if x else d` on an optional string (also `x or d`): both `None`
and the empty string are falsy, so each yields the default. -/
def pyOrStr (x : Option String) (d : String) : String :=
  match x with
  | none => d
  | some s => if s = "" then d else s

/-- The kernel status file path read by `get_fips_status`. -/
def fips_file : String := "/proc/sys/crypto/fips_enabled"

/-- `get_fips_status` from the source: read the kernel status file, strip the
content and compare with "1"; any exception yields `False`. -/
def get_fips_status (env : Env) : Bool :=
  match env.readFile fips_file with
  | none => false
  | some content => pyStrip content == "1"

/-- `get_crypto_policy` from the source: `policy if policy else "Unknown"`
applied to `run_command("update-crypto-policies --show")`. -/
def get_crypto_policy (env : Env) : String :=
  pyOrStr (run_command env "update-crypto-policies --show") "Unknown"

/-- The SCAP content path tested by `get_stig_info`. -/
def ssg_path : String := "/usr/share/xml/scap/ssg/content"

/-- `get_stig_info` from the source: a pure path existence check. -/
def get_stig_info (env : Env) : Bool :=
  env.pathExists ssg_path

/-- `get_bootc_status` from the source: `status if status else None` applied
to `run_command("bootc status --json 2>/dev/null")`. -/
def get_bootc_status (env : Env) : Option String :=
  match run_command env "bootc status --json 2>/dev/null" with
  | none => none
  | some s => if s = "" then none else some s

/-- The dictionary built by `get_system_info`, as a record. -/
structure SystemInfo where
  hostname : String
  os : String
  release : String
  architecture : String
  python_version : String
  uptime : String
  load_average : Rat × Rat × Rat
  cpu_count : Option Nat
  deriving DecidableEq

/-- `get_system_info` from the source. The `os.getloadavg()` entry is not
guarded by any handler, so when the platform does not expose load averages
the whole function raises `OSError`; every other entry is total. -/
def get_system_info (env : Env) : Except PyExc SystemInfo :=
  match env.loadavg with
  | none => .error .OSError
  | some la =>
      .ok { hostname := env.hostname
            os := env.system
            release := env.release
            architecture := env.machine
            python_version := env.python_version
            uptime := pyOrStr (run_command env "uptime -p") "Unknown"
            load_average := la
            cpu_count := env.cpu_count }

/-- JSON values, as serialized by `flask.jsonify`. -/
inductive Json where
  | null
  | bool (b : Bool)
  | num (q : Rat)
  | str (s : String)
  | arr (elems : List Json)
  | obj (fields : List (String × Json))

/-- Top-level key list of a JSON object (empty for non-objects). -/
def Json.keys : Json → List String
  | .obj fs => fs.map Prod.fst
  | _ => []

/-- Look a key up in a JSON object. -/
def Json.lookup (j : Json) (k : String) : Option Json :=
  match j with
  | .obj fs => List.lookup k fs
  | _ => none

/-- Serialization of the `get_system_info` dictionary: `jsonify` renders the
Python tuple of load averages as a JSON array and `None` as `null`. -/
def SystemInfo.toJson (s : SystemInfo) : Json :=
  .obj [ ("hostname", .str s.hostname)
       , ("os", .str s.os)
       , ("release", .str s.release)
       , ("architecture", .str s.architecture)
       , ("python_version", .str s.python_version)
       , ("uptime", .str s.uptime)
       , ("load_average", .arr [.num s.load_average.1, .num s.load_average.2.1,
            .num s.load_average.2.2])
       , ("cpu_count", match s.cpu_count with
            | none => Json.null
            | some n => Json.num (n : Rat)) ]

/-- An HTTP response: status code and JSON body. -/
structure Response where
  statusCode : Nat
  body : Json

/-- The `/api/status` handler. It first calls `get_system_info`; if that
raises (unavailable load averages) the exception propagates out of the
handler, modelled by `.error`, and no 200 JSON response is produced.
Otherwise it assembles the report dictionary exactly as in the source. -/
def status (env : Env) : Except PyExc Response :=
  match get_system_info env with
  | .error e => .error e
  | .ok system_info =>
      .ok { statusCode := 200
            body := .obj
              [ ("timestamp", .str env.now)
              , ("system", system_info.toJson)
              , ("security", .obj
                  [ ("fips_enabled", .bool (get_fips_status env))
                  , ("crypto_policy", .str (get_crypto_policy env))
                  , ("stig_installed", .bool (get_stig_info env)) ])
              , ("bootc_status", match get_bootc_status env with
                  | none => Json.null
                  | some s => Json.str s) ] }

/-- The `/api/health` handler: a constant payload with the current time. -/
def health (env : Env) : Response :=
  { statusCode := 200
    body := .obj [("status", .str "healthy"), ("timestamp", .str env.now)] }

/-- A fully healthy baseline environment used for concrete evaluations. -/
def baseEnv : Env :=
  { exec := fun _ _ => .completes 0 "out"
    readFile := fun _ => some "0\n"
    pathExists := fun _ => true
    hostname := "demo-host"
    system := "Linux"
    release := "5.14.0"
    machine := "x86_64"
    python_version := "3.11.0"
    loadavg := some (1, 2, 3)
    cpu_count := some 4
    now := "2024-01-01T00:00:00" }

/-- C1: `get_fips_status` returns true if and only if the kernel status file
`/proc/sys/crypto/fips_enabled` can be read and its trimmed content is
exactly "1"; every other content and every read error yields false. -/
theorem C1_fips_iff (env : Env) :
    get_fips_status env = true ↔
      ∃ s, env.readFile fips_file = some s ∧ pyStrip s = "1" := by
  unfold get_fips_status
  cases h : env.readFile fips_file with
  | none => simp [h]
  | some s => simp [h]

/-- An environment whose platform does not expose load averages, so
`os.getloadavg()` raises. Every other probe is healthy. -/
def envNoLoad : Env := { baseEnv with loadavg := none }

/-- C2 counterexample: in an environment where the platform does not expose
load averages, every probe having an outcome, building the status report
raises `OSError` out of the handler, so no 200 response is produced. This
refutes the claim that the report never raises in every environment state. -/
theorem C2_counterexample : status envNoLoad = .error .OSError := rfl

/-- C2 amended: in every environment in which the platform exposes load
averages, building the status report never raises and the handler returns a
200 response, whatever the outcomes of the external commands, the kernel
file, the filesystem path and the remaining platform queries. -/
theorem C2_amended (env : Env) (la : Rat × Rat × Rat)
    (h : env.loadavg = some la) :
    ∃ r, status env = .ok r ∧ r.statusCode = 200 := by
  unfold status get_system_info
  rw [h]
  exact ⟨_, rfl, rfl⟩

/-- C2 amended, witness: the baseline environment exposes load averages and
the handler returns 200 on it. -/
theorem C2_amended_witness :
    ∃ r, status baseEnv = .ok r ∧ r.statusCode = 200 :=
  C2_amended baseEnv (1, 2, 3) rfl

/-- C3 counterexample: when the platform does not expose load averages,
`get_system_info` raises `OSError` instead of failing closed to a
zero/placeholder value. -/
theorem C3_counterexample : get_system_info envNoLoad = .error .OSError := rfl

/-- C3 amended: when the platform does not expose a CPU count,
`get_system_info` fails closed, reporting the `None`/null placeholder in the
`cpu_count` field; but when the platform does not expose load averages, the
unguarded `os.getloadavg()` call makes the whole operation raise rather than
fail closed. -/
theorem C3_amended (env env2 : Env) (la : Rat × Rat × Rat)
    (hla : env.loadavg = some la) (hcpu : env.cpu_count = none)
    (h2 : env2.loadavg = none) :
    (∃ si, get_system_info env = .ok si ∧ si.cpu_count = none ∧
      si.toJson.lookup "cpu_count" = some Json.null) ∧
    get_system_info env2 = .error .OSError := by
  constructor
  · unfold get_system_info
    rw [hla]
    refine ⟨_, rfl, hcpu, ?_⟩
    simp [SystemInfo.toJson, Json.lookup, List.lookup, hcpu]
  · unfold get_system_info
    rw [h2]

/-- An environment whose platform exposes load averages but no CPU count. -/
def envCpuNone : Env := { baseEnv with cpu_count := none }

/-- C3 amended, witness: with the CPU count unavailable the field is the
`None` placeholder, and with load averages unavailable the operation raises. -/
theorem C3_amended_witness :
    (∃ si, get_system_info envCpuNone = .ok si ∧ si.cpu_count = none ∧
      si.toJson.lookup "cpu_count" = some Json.null) ∧
    get_system_info envNoLoad = .error .OSError :=
  C3_amended envCpuNone envNoLoad (1, 2, 3) rfl rfl rfl

/-- C4: the uptime field is obtained by running the external command
`uptime -p` with a 5-second timeout, and for every outcome that raises
(timeout included) or exits non-zero, the field equals "Unknown". -/
theorem C4_uptime_default (env : Env) (la : Rat × Rat × Rat)
    (hla : env.loadavg = some la)
    (hfail : env.exec "uptime -p" 5 = CmdOutcome.raises ∨
      ∃ rc out, env.exec "uptime -p" 5 = CmdOutcome.completes rc out ∧ rc ≠ 0) :
    ∃ si, get_system_info env = .ok si ∧ si.uptime = "Unknown" := by
  have hrun : run_command env "uptime -p" = none := by
    unfold run_command
    rcases hfail with h | ⟨rc, out, h, hrc⟩
    · rw [h]
    · rw [h]
      simp [hrc]
  unfold get_system_info
  rw [hla]
  exact ⟨_, rfl, by simp [hrun, pyOrStr]⟩

/-- An environment in which every external command raises (for example by
timing out); everything else is healthy. -/
def envAllRaise : Env := { baseEnv with exec := fun _ _ => CmdOutcome.raises }

/-- C4 witness: when the uptime command times out, the uptime field is
"Unknown". -/
theorem C4_uptime_default_witness :
    ∃ si, get_system_info envAllRaise = .ok si ∧ si.uptime = "Unknown" :=
  C4_uptime_default envAllRaise (1, 2, 3) rfl (Or.inl rfl)

/-- An environment in which every external command exits 0 with
whitespace-only standard output; everything else is healthy. -/
def envWhitespaceOut : Env :=
  { baseEnv with exec := fun _ _ => CmdOutcome.completes 0 "  \n" }

/-- C5 counterexample: the policy-query command succeeds (exit code 0) with
whitespace-only output, yet `get_crypto_policy` returns "Unknown", which is
neither the captured output nor its trimmed form. -/
theorem C5_counterexample :
    envWhitespaceOut.exec "update-crypto-policies --show" 5
        = CmdOutcome.completes 0 "  \n" ∧
    get_crypto_policy envWhitespaceOut = "Unknown" ∧
    get_crypto_policy envWhitespaceOut ≠ "  \n" ∧
    get_crypto_policy envWhitespaceOut ≠ pyStrip "  \n" := by
  refine ⟨rfl, ?_, ?_, ?_⟩ <;> decide

/-- C5 amended: `get_crypto_policy` returns "Unknown" on every failure of the
policy-query command (raise, timeout, non-zero exit) and also on a successful
run whose trimmed output is empty; on a successful run with non-empty trimmed
output it returns that trimmed output. -/
theorem C5_amended (env : Env) :
    (env.exec "update-crypto-policies --show" 5 = CmdOutcome.raises →
      get_crypto_policy env = "Unknown") ∧
    (∀ rc out,
      env.exec "update-crypto-policies --show" 5 = CmdOutcome.completes rc out →
      (rc ≠ 0 → get_crypto_policy env = "Unknown") ∧
      (rc = 0 → pyStrip out = "" → get_crypto_policy env = "Unknown") ∧
      (rc = 0 → pyStrip out ≠ "" → get_crypto_policy env = pyStrip out)) := by
  constructor
  · intro h
    simp [get_crypto_policy, run_command, h, pyOrStr]
  · intro rc out h
    refine ⟨fun hrc => ?_, fun hrc ht => ?_, fun hrc ht => ?_⟩ <;>
      simp [get_crypto_policy, run_command, h, hrc, pyOrStr] <;> simp [ht]

/-- C5 amended, witness: a successful run with whitespace-only output yields
"Unknown". -/
theorem C5_amended_witness :
    get_crypto_policy envWhitespaceOut = "Unknown" :=
  ((C5_amended envWhitespaceOut).2 0 "  \n" rfl).2.1 rfl (by decide)

/-- An environment in which every external command raises (the boot-status
command among them) and the platform does not expose load averages. -/
def envBootcFailNoLoad : Env :=
  { baseEnv with exec := fun _ _ => CmdOutcome.raises, loadavg := none }

/-- C6 counterexample: the boot-status command times out, `get_bootc_status`
duly returns `None`, yet the `/api/status` handler does not return 200 in
this environment — the unguarded load-average read raises, so the request
fails. This refutes the claim that in every such case the endpoint still
returns 200. -/
theorem C6_counterexample :
    get_bootc_status envBootcFailNoLoad = none ∧
    status envBootcFailNoLoad = .error .OSError := ⟨rfl, rfl⟩

/-- C6 amended: `get_bootc_status` returns `None` — not an error — whenever
the boot-status command raises (timeout, missing shell) or exits non-zero
(a missing command makes the shell exit 127); and in that case, provided the
platform exposes load averages, `/api/status` still returns 200 with
`bootc_status` null. -/
theorem C6_amended (env : Env)
    (hfail : env.exec "bootc status --json 2>/dev/null" 5 = CmdOutcome.raises ∨
      ∃ rc out, env.exec "bootc status --json 2>/dev/null" 5
          = CmdOutcome.completes rc out ∧ rc ≠ 0) :
    get_bootc_status env = none ∧
    (∀ la, env.loadavg = some la →
      ∃ r, status env = .ok r ∧ r.statusCode = 200 ∧
        r.body.lookup "bootc_status" = some Json.null) := by
  have hrun : run_command env "bootc status --json 2>/dev/null" = none := by
    unfold run_command
    rcases hfail with h | ⟨rc, out, h, hrc⟩
    · rw [h]
    · rw [h]
      simp [hrc]
  have hb : get_bootc_status env = none := by
    unfold get_bootc_status
    rw [hrun]
  refine ⟨hb, fun la hla => ?_⟩
  unfold status get_system_info
  rw [hla]
  refine ⟨_, rfl, rfl, ?_⟩
  simp [hb, Json.lookup, List.lookup]

/-- An environment in which every external command raises but load averages
are available. -/
def envBootcFail : Env :=
  { baseEnv with exec := fun _ _ => CmdOutcome.raises, now := "2024-01-01T00:00:02" }

/-- C6 amended, witness: with the boot-status command timing out and load
averages available, the status is `None` and the endpoint returns 200 with a
null `bootc_status`. -/
theorem C6_amended_witness :
    get_bootc_status envBootcFail = none ∧
    ∃ r, status envBootcFail = .ok r ∧ r.statusCode = 200 ∧
      r.body.lookup "bootc_status" = some Json.null :=
  ⟨(C6_amended envBootcFail (Or.inl rfl)).1,
   (C6_amended envBootcFail (Or.inl rfl)).2 (1, 2, 3) rfl⟩

/-- C7: the `/api/health` handler returns, for every state of the system
probes, a 200 response whose body is exactly the object with "status" equal
to "healthy" and "timestamp" equal to the clock reading. -/
theorem C7_health (env : Env) :
    (health env).statusCode = 200 ∧
    (health env).body.lookup "status" = some (Json.str "healthy") ∧
    (health env).body.lookup "timestamp" = some (Json.str env.now) ∧
    (health env).body
      = Json.obj [("status", Json.str "healthy"), ("timestamp", Json.str env.now)] := by
  refine ⟨rfl, ?_, ?_, rfl⟩ <;> simp [health, Json.lookup, List.lookup]

/-- C8: every JSON response actually produced by `/api/status` has exactly
the top-level fields timestamp, system, security and bootc_status, the system
object has exactly its 8 documented sub-fields in order, and the security
object has exactly its 3 documented sub-fields in order. -/
theorem C8_fields (env : Env) (r : Response) (h : status env = .ok r) :
    r.body.keys = ["timestamp", "system", "security", "bootc_status"] ∧
    (∃ sys, r.body.lookup "system" = some sys ∧
      sys.keys = ["hostname", "os", "release", "architecture", "python_version",
                  "uptime", "load_average", "cpu_count"]) ∧
    (∃ sec, r.body.lookup "security" = some sec ∧
      sec.keys = ["fips_enabled", "crypto_policy", "stig_installed"]) ∧
    (∃ bs, r.body.lookup "bootc_status" = some bs) := by
  unfold status get_system_info at h
  cases hla : env.loadavg with
  | none =>
      rw [hla] at h
      exact Except.noConfusion h
  | some la =>
      rw [hla] at h
      rw [← Except.ok.inj h]
      exact ⟨rfl, ⟨_, rfl, rfl⟩, ⟨_, rfl, rfl⟩, ⟨_, rfl⟩⟩

/-- C8 witness: on the baseline environment the handler answers and the
response carries exactly the four documented top-level fields. -/
theorem C8_fields_witness :
    ∃ r, status baseEnv = Except.ok r ∧
      r.body.keys = ["timestamp", "system", "security", "bootc_status"] := by
  refine ⟨_, rfl, ?_⟩
  exact (C8_fields baseEnv _ rfl).1

/-- A second request snapshot in which the clock did not advance since
`baseEnv` but the external commands now fail. -/
def envSecondCall : Env :=
  { baseEnv with exec := fun _ _ => CmdOutcome.completes 1 "x" }

/-- C9 counterexample: two consecutive calls between which the clock reading
did not advance produce the same timestamp value, refuting the claim that
consecutive responses always carry different timestamps. -/
theorem C9_counterexample :
    ∃ r₁ r₂, status baseEnv = .ok r₁ ∧ status envSecondCall = .ok r₂ ∧
      r₁.body.lookup "timestamp" = some (Json.str "2024-01-01T00:00:00") ∧
      r₂.body.lookup "timestamp" = some (Json.str "2024-01-01T00:00:00") :=
  ⟨_, _, rfl, rfl, rfl, rfl⟩

/-- C9 amended: each response stamps exactly the clock reading of its call
and reports exactly the host name of its call, so two consecutive calls
produce different, ordered timestamps whenever the clock strictly advances
between them, and identical hostname fields whenever the host name is
unchanged (load averages being available, so that the responses exist). -/
theorem C9_amended (env₁ env₂ : Env) (la₁ la₂ : Rat × Rat × Rat)
    (h₁ : env₁.loadavg = some la₁) (h₂ : env₂.loadavg = some la₂)
    (hle : env₁.now ≤ env₂.now) (hne : env₁.now ≠ env₂.now)
    (hhost : env₁.hostname = env₂.hostname) :
    ∃ r₁ r₂, status env₁ = .ok r₁ ∧ status env₂ = .ok r₂ ∧
      ∃ t₁ t₂, r₁.body.lookup "timestamp" = some (Json.str t₁) ∧
        r₂.body.lookup "timestamp" = some (Json.str t₂) ∧
        t₁ ≤ t₂ ∧ t₁ ≠ t₂ ∧
        ∃ s₁ s₂, r₁.body.lookup "system" = some s₁ ∧
          r₂.body.lookup "system" = some s₂ ∧
          s₁.lookup "hostname" = s₂.lookup "hostname" := by
  unfold status get_system_info
  rw [h₁, h₂]
  refine ⟨_, _, rfl, rfl, env₁.now, env₂.now, rfl, rfl, hle, hne,
    _, _, rfl, rfl, ?_⟩
  simp [SystemInfo.toJson, Json.lookup, List.lookup, hhost]

/-- A later request snapshot: same host, clock strictly advanced. -/
def envLaterCall : Env := { baseEnv with now := "2024-01-01T00:00:05" }

/-- C9 amended, witness: with the clock strictly advancing between the two
calls and the host name unchanged, the two responses carry distinct ordered
timestamps and identical hostname fields. -/
theorem C9_amended_witness :
    ∃ r₁ r₂, status baseEnv = .ok r₁ ∧ status envLaterCall = .ok r₂ ∧
      ∃ t₁ t₂, r₁.body.lookup "timestamp" = some (Json.str t₁) ∧
        r₂.body.lookup "timestamp" = some (Json.str t₂) ∧
        t₁ ≤ t₂ ∧ t₁ ≠ t₂ ∧
        ∃ s₁ s₂, r₁.body.lookup "system" = some s₁ ∧
          r₂.body.lookup "system" = some s₂ ∧
          s₁.lookup "hostname" = s₂.lookup "hostname" :=
  C9_amended baseEnv envLaterCall (1, 2, 3) (1, 2, 3) rfl rfl
    (by rw [String.le_iff_toList_le]; decide) (by decide) rfl

/-- C10: when every external probe command exits 0 with whitespace-only
output, the result is indistinguishable from a failed probe: the crypto
policy is "Unknown", the uptime field is "Unknown", and the boot status is
`None`. -/
theorem C10_blank_success (env : Env) (la : Rat × Rat × Rat)
    (hla : env.loadavg = some la) (outc outu outb : String)
    (hc : env.exec "update-crypto-policies --show" 5
        = CmdOutcome.completes 0 outc)
    (hct : pyStrip outc = "")
    (hu : env.exec "uptime -p" 5 = CmdOutcome.completes 0 outu)
    (hut : pyStrip outu = "")
    (hb : env.exec "bootc status --json 2>/dev/null" 5
        = CmdOutcome.completes 0 outb)
    (hbt : pyStrip outb = "") :
    get_crypto_policy env = "Unknown" ∧
    get_bootc_status env = none ∧
    ∃ si, get_system_info env = .ok si ∧ si.uptime = "Unknown" := by
  refine ⟨?_, ?_, ?_⟩
  · simp [get_crypto_policy, run_command, hc, hct, pyOrStr]
  · simp [get_bootc_status, run_command, hb, hbt]
  · unfold get_system_info
    rw [hla]
    exact ⟨_, rfl, by simp [run_command, hu, hut, pyOrStr]⟩

/-- C10 witness: all probes exiting 0 with whitespace-only output yield the
same defaults as failed probes. -/
theorem C10_blank_success_witness :
    get_crypto_policy envWhitespaceOut = "Unknown" ∧
    get_bootc_status envWhitespaceOut = none ∧
    ∃ si, get_system_info envWhitespaceOut = .ok si ∧ si.uptime = "Unknown" :=
  C10_blank_success envWhitespaceOut (1, 2, 3) rfl "  \n" "  \n" "  \n"
    rfl (by decide) rfl (by decide) rfl (by decide)

end Webapp
